import Mathlib

/-!
Shallow embedding of the data-acquisition core of the Cards repository:
the service layer (`src/utils/userService.ts`) and the App-level data logic
(`src/App.tsx`, `src/components/SearchFilter.tsx`), together with theorems
checking the specification's claims against it.

JavaScript strings are Lean `String`s, JavaScript numbers appearing here are
`Nat` (record counts, offsets, ages and ids are non-negative integers in this
program), the mutable global id counter is passed as explicit state, and the
`undefined` result of `getNextPageParam` is the `stop` constructor of an
explicit result type.
-/

namespace Cards

/-- ASCII whitespace characters, the ones relevant to the search strings of
this program; used to model JavaScript trimming. -/
def isWs (c : Char) : Bool := c == ' ' || c == '\t' || c == '\n' || c == '\r'

/-- Models `String.prototype.trim` (over the ASCII whitespace characters):
drop whitespace from both ends. -/
def jsTrim (s : String) : String :=
  ⟨((s.data.dropWhile isWs).reverse.dropWhile isWs).reverse⟩

/-- Models `String.prototype.toLowerCase`, character by character. -/
def jsToLower (s : String) : String := ⟨s.data.map Char.toLower⟩

/-- The demo status values of `userService.ts`: "active", "inactive",
"pending". -/
inductive Status
  | active
  | inactive
  | pending
deriving DecidableEq, Repr

/-- A user record (`src/types/user.ts`), restricted to the fields the core
logic reads: `id`, `age`, `gender` and the derived `status`; a few more
display fields are kept so that the record-spread in `assignStatusToUsers`
is visibly field-preserving. -/
structure User where
  id : Nat
  firstName : String
  lastName : String
  age : Nat
  gender : String
  email : String
  status : Option Status := none
deriving DecidableEq, Repr

/-- Embeds `statuses[originalId % 3]` from `assignStatusToUsers`
(userService.ts): the fixed three-element array indexed by the original
remote id modulo 3. -/
def assignStatus (originalId : Nat) : Status :=
  match originalId % 3 with
  | 0 => .active
  | 1 => .inactive
  | _ => .pending

/-- `assignStatusToUsers` (userService.ts lines 19-35): a left-to-right map
that increments the global id counter for each record, rewrites the record's
`id` to the fresh counter value, and derives `status` from the original id.
The mutable module-level `globalIdCounter` is the explicit second argument
and second component of the result. -/
def assignStatusToUsers : List User → Nat → List User × Nat
  | [], ctr => ([], ctr)
  | u :: rest, ctr =>
    let ctr1 := ctr + 1
    let u1 : User := { u with id := ctr1, status := some (assignStatus u.id) }
    let p := assignStatusToUsers rest ctr1
    (u1 :: p.1, p.2)

/-- A whole session's worth of raw pages flowing through `assignStatusToUsers`
in fetch order, threading the same global counter (exactly what happens when
`fetchUsers` / `searchUsers` / `filterUsers` are called repeatedly). -/
def processPages : List (List User) → Nat → List (List User) × Nat
  | [], ctr => ([], ctr)
  | pg :: rest, ctr =>
    let p := assignStatusToUsers pg ctr
    let q := processPages rest p.2
    (p.1 :: q.1, q.2)

/-- The parsed JSON body of a 2xx remote response as observed by `fetchUsers`
(userService.ts lines 40-58): `users` is `none` when the field is missing
from the body (JavaScript `undefined`). -/
structure RawBody where
  users : Option (List User)
  total : Nat
deriving DecidableEq, Repr

/-- The normalized response the service layer returns to the caller. -/
structure UsersResponse where
  users : List User
  total : Nat
deriving DecidableEq, Repr

/-- Errors a fetch can propagate: `typeError` is the JavaScript TypeError
thrown by `data.users.map(...)` when `data.users` is `undefined`;
`transportError` is the thrown "Failed to fetch users" on a non-2xx
response. Both escape through the catch block, which rethrows. -/
inductive FetchError
  | typeError
  | transportError
deriving DecidableEq, Repr

/-- The normalization step of `fetchUsers` after a 2xx response:
`return { ...data, users: assignStatusToUsers(data.users) }`. When the body
has no `users` array, `data.users.map` throws a TypeError and the catch
block rethrows it, so the error propagates to the caller. -/
def parseResponse (body : RawBody) (ctr : Nat) :
    Except FetchError (UsersResponse × Nat) :=
  match body.users with
  | none => .error .typeError
  | some us =>
    let p := assignStatusToUsers us ctr
    .ok ({ users := p.1, total := body.total }, p.2)

/-- The `searchType` values of `FetchUsersParams` (userService.ts). -/
inductive SearchType
  | all
  | firstName
  | lastName
deriving DecidableEq, Repr

/-- `FetchUsersParams` (userService.ts lines 5-12); optional string fields
are `Option String, with `none` for JavaScript `undefined`. -/
structure FetchUsersParams where
  limit : Nat := 30
  skip : Nat := 0
  search : Option String := none
  searchType : SearchType := .all
  filterKey : Option String := none
  filterValue : Option String := none
deriving DecidableEq, Repr

/-- Which of the three remote calls of `userService.ts` a request resolves
to: `searchUsers` (the `/search` route), `filterUsers` (the `/filter`
route), or `fetchUsers` (the plain paginated listing). -/
inductive RequestShape
  | searchCall (query : String) (limit skip : Nat)
  | filterCall (key value : String) (limit skip : Nat)
  | listCall (limit skip : Nat)
deriving DecidableEq, Repr

/-- JavaScript truthiness of `search && search.trim()`: the search parameter
is present, non-empty, and has a non-empty trim. -/
def searchActive : Option String → Bool
  | none => false
  | some s => !(s == "") && !(jsTrim s == "")

/-- JavaScript truthiness of an optional string parameter (`filterKey`,
`filterValue`): present and non-empty. -/
def optTruthy : Option String → Bool
  | none => false
  | some s => !(s == "")

/-- `fetchUsersWithParams` (userService.ts lines 120-142), mapped onto the
remote request shape it issues. -/
def fetchUsersWithParams (p : FetchUsersParams) : RequestShape :=
  if searchActive p.search then
    match p.searchType with
    | .firstName => .filterCall "firstName" (p.search.getD "") p.limit p.skip
    | .lastName => .filterCall "lastName" (p.search.getD "") p.limit p.skip
    | .all => .searchCall (p.search.getD "") p.limit p.skip
  else if optTruthy p.filterKey && optTruthy p.filterValue then
    .filterCall (p.filterKey.getD "") (p.filterValue.getD "") p.limit p.skip
  else
    .listCall p.limit p.skip

/-- `BATCH_SIZE` (App.tsx line 11). -/
def BATCH_SIZE : Nat := 100

/-- `MAX_USERS` (App.tsx line 12): the hard cap. -/
def MAX_USERS : Nat := 150000

/-- `FilterOptions` (SearchFilter.tsx): the whole filter state, the
client-only `ageRange` included. -/
structure FilterOptions where
  searchQuery : String
  searchType : SearchType
  gender : String
  ageRange : String
deriving DecidableEq, Repr

/-- The `queryFn` of the infinite query (App.tsx lines 45-53): how App
builds the parameters of `fetchUsersWithParams` from the filter state —
`filterKey` is "gender" exactly when `filters.gender` is truthy, and
`filterValue` is `filters.gender` itself. -/
def appQueryFn (f : FilterOptions) (pageParam : Nat) : RequestShape :=
  fetchUsersWithParams
    { limit := BATCH_SIZE
      skip := pageParam
      search := some f.searchQuery
      searchType := f.searchType
      filterKey := if f.gender = "" then none else some "gender"
      filterValue := some f.gender }

/-- The age-range switch of the `users` useMemo (App.tsx lines 127-143):
each known bucket token is an inclusive numeric range, `60+` has no upper
bound, and an unknown or empty token imposes no age constraint (the switch's
default falls through to `return true`). -/
def agePass (ageRange : String) (age : Nat) : Bool :=
  if ageRange == "18-25" then decide (18 ≤ age ∧ age ≤ 25)
  else if ageRange == "26-35" then decide (26 ≤ age ∧ age ≤ 35)
  else if ageRange == "36-45" then decide (36 ≤ age ∧ age ≤ 45)
  else if ageRange == "46-60" then decide (46 ≤ age ∧ age ≤ 60)
  else if ageRange == "60+" then decide (60 ≤ age)
  else true

/-- The per-user predicate of the `users` useMemo (App.tsx lines 118-146):
when both `filters.gender` and `filters.searchQuery` are truthy, a record
whose lowercased gender differs from the lowercased filter gender is
rejected; the surviving records then go through the age-range switch. -/
def residualPass (f : FilterOptions) (u : User) : Bool :=
  if !(f.gender == "") && !(f.searchQuery == "")
      && !(jsToLower u.gender == jsToLower f.gender) then
    false
  else
    agePass f.ageRange u.age

/-- `allUsers.filter(...)` of the `users` useMemo: the single linear-pass
client-side residual filter over the flattened pages. -/
def applyResidual (f : FilterOptions) (us : List User) : List User :=
  us.filter (residualPass f)

/-- The App state the claims touch: the selection set, the focused record
and the filter state. -/
structure AppState where
  selectedUsers : Finset Nat
  currentUser : Option User
  filters : FilterOptions

/-- `handleFiltersChange` (App.tsx lines 178-182): installs the new filters
and clears the selection set (`setSelectedUsers(new Set())`), keeping
`currentUser`. Every control of `SearchFilter.tsx` — the gender pills, the
age-range select, the search-type select and the search form — reports its
change through this one handler. -/
def handleFiltersChange (newFilters : FilterOptions) (s : AppState) : AppState :=
  { s with filters := newFilters, selectedUsers := ∅ }

/-- The `queryKey` of the infinite query (App.tsx lines 39-44): searchQuery,
searchType and gender only — `ageRange` is absent, so changing it alone
never invalidates the page cache. -/
def queryKey (f : FilterOptions) : String × SearchType × String :=
  (f.searchQuery, f.searchType, f.gender)

/-- The two fields of a fetched page that `getNextPageParam` reads: the
number of records returned (`page.users.length`) and the reported
`total`. -/
structure PageInfo where
  len : Nat
  total : Nat
deriving DecidableEq, Repr

/-- The value `getNextPageParam` hands back to the query machinery:
`stop` is JavaScript `undefined` (no next page), `ofs n` a numeric offset,
and `nan` the NaN produced by `loadedCount % lastPage.total` when
`lastPage.total` is zero. -/
inductive NextParam
  | stop
  | ofs (n : Nat)
  | nan
deriving DecidableEq, Repr

/-- `allPages.reduce((sum, page) => sum + page.users.length, 0)`. -/
def loadedOf (pages : List PageInfo) : Nat := (pages.map PageInfo.len).sum

/-- `getNextPageParam` (App.tsx lines 55-81), with `MAX_USERS` generalized
to an explicit `cap` argument. The final ternary's `undefined` branch is
kept even though it is unreachable (its guard `loadedCount < MAX_USERS` is
implied by the first check having failed). -/
def getNextPageParam (cap : Nat) (lastPage : PageInfo) (allPages : List PageInfo) :
    NextParam :=
  if loadedOf allPages ≥ cap then .stop
  else if lastPage.len = 0 then .stop
  else if loadedOf allPages < lastPage.total then .ofs (loadedOf allPages)
  else if loadedOf allPages < cap then
    (if lastPage.total = 0 then .nan
      else .ofs (loadedOf allPages % lastPage.total))
  else .stop

/-- An honest remote page for a source holding `T` matching records: a
request at offset `o` with limit `L` returns `min L (T - o)` records when
`o < T` and zero records past the end, always reporting `total = T`. -/
def pageAt (T L o : Nat) : PageInfo :=
  { len := if o < T then min L (T - o) else 0, total := T }

/-- Drives the infinite query against the honest remote: starting from the
pages fetched so far, repeatedly ask `getNextPageParam` for the next offset
and fetch it, until it answers `stop` (or fuel runs out). Returns the
offsets requested in order, whether `stop` was reached, and the pages
accumulated. -/
def runFrom (cap T L : Nat) :
    Nat → List PageInfo → List Nat → List Nat × Bool × List PageInfo
  | 0, pages, offs => (offs.reverse, false, pages)
  | fuel + 1, pages, offs =>
    match pages.getLast? with
    | none => (offs.reverse, false, pages)
    | some last =>
      match getNextPageParam cap last pages with
      | .stop => (offs.reverse, true, pages)
      | .nan => (offs.reverse, false, pages)
      | .ofs o => runFrom cap T L fuel (pages ++ [pageAt T L o]) (o :: offs)

/-- A whole session against the honest remote: the initial page parameter is
0 (`initialPageParam: 0`), after which `getNextPageParam` decides every
subsequent offset. -/
def runSession (cap T L fuel : Nat) : List Nat × Bool × List PageInfo :=
  runFrom cap T L fuel [pageAt T L 0] [0]

/-- A sample record aged exactly 25, for the bucket-boundary checks. -/
def u25 : User :=
  { id := 1, firstName := "Ann", lastName := "Lee", age := 25,
    gender := "male", email := "ann@example.com" }

/-- A sample record aged exactly 60, for the bucket-boundary checks. -/
def u60 : User :=
  { id := 2, firstName := "Bea", lastName := "Cruz", age := 60,
    gender := "female", email := "bea@example.com" }

/-- The initial filter state of App.tsx (lines 18-23): everything empty,
search type "all". -/
def baseFilters : FilterOptions :=
  { searchQuery := "", searchType := .all, gender := "", ageRange := "" }

/-- Concrete filter state: searching "john" over all fields, no gender. -/
def johnFilters : FilterOptions :=
  { searchQuery := "john", searchType := .all, gender := "", ageRange := "" }

/-- Concrete filter state: searching "john" with the gender pill on
"female" — the combined text+gender scenario of the spec. -/
def johnFemaleFilters : FilterOptions :=
  { searchQuery := "john", searchType := .all, gender := "female", ageRange := "" }

/-- Concrete filter state: a single-space search query with gender
"female". -/
def blankFemaleFilters : FilterOptions :=
  { searchQuery := " ", searchType := .all, gender := "female", ageRange := "" }

/-- Concrete filter state: a two-space search query with gender "female". -/
def blank2FemaleFilters : FilterOptions :=
  { searchQuery := "  ", searchType := .all, gender := "female", ageRange := "" }

/-- Trimming the empty string gives the empty string. -/
lemma jsTrim_nil : jsTrim "" = "" := rfl

/-- A string whose trim is non-empty is itself non-empty, so the JS guard
`search && search.trim()` is truthy on it. -/
lemma searchActive_of_trim_ne {s : String} (h : jsTrim s ≠ "") :
    searchActive (some s) = true := by
  have hs : s ≠ "" := by
    intro he
    rw [he] at h
    exact h jsTrim_nil
  simp [searchActive, hs, h]

/-- A string with an empty trim fails the JS guard `search && search.trim()`. -/
lemma searchActive_of_trim_eq {s : String} (h : jsTrim s = "") :
    searchActive (some s) = false := by
  simp [searchActive, h]

/-- The rewritten list keeps its length. -/
lemma assignStatusToUsers_length (us : List User) (ctr : Nat) :
    (assignStatusToUsers us ctr).1.length = us.length := by
  induction us generalizing ctr with
  | nil => rfl
  | cons u rest ih => simp [assignStatusToUsers, ih]

/-- The counter advances by exactly the number of records processed. -/
lemma assignStatusToUsers_ctr (us : List User) (ctr : Nat) :
    (assignStatusToUsers us ctr).2 = ctr + us.length := by
  induction us generalizing ctr with
  | nil => rfl
  | cons u rest ih => simp [assignStatusToUsers, ih]; omega

/-- The ids handed out by one pass are the consecutive counter values
`ctr+1, ..., ctr+n`. -/
lemma assignStatusToUsers_ids (us : List User) (ctr : Nat) :
    (assignStatusToUsers us ctr).1.map User.id = List.range' (ctr + 1) us.length := by
  induction us generalizing ctr with
  | nil => rfl
  | cons u rest ih => simp [assignStatusToUsers, ih, List.range'_succ]

/-- The statuses handed out by one pass are the mod-3 function of the
original ids, position by position. -/
lemma assignStatusToUsers_statuses (us : List User) (ctr : Nat) :
    (assignStatusToUsers us ctr).1.map User.status
      = us.map (fun u => some (assignStatus u.id)) := by
  induction us generalizing ctr with
  | nil => rfl
  | cons u rest ih => simp [assignStatusToUsers, ih]

/-- Across a whole session the ids are the consecutive counter values
starting right after the initial counter. -/
lemma processPages_ids (pgs : List (List User)) (ctr : Nat) :
    ((processPages pgs ctr).1.flatten).map User.id
      = List.range' (ctr + 1) (pgs.map List.length).sum := by
  induction pgs generalizing ctr with
  | nil => rfl
  | cons pg rest ih =>
    have happ := List.range'_append (ctr + 1) pg.length (rest.map List.length).sum 1
    rw [one_mul] at happ
    simp only [processPages, List.flatten_cons, List.map_append,
      assignStatusToUsers_ids, assignStatusToUsers_ctr, ih,
      List.map_cons, List.sum_cons]
    rw [show ctr + pg.length + 1 = ctr + 1 + pg.length by omega, happ,
      Nat.add_comm (rest.map List.length).sum pg.length]

/-- Across a whole session the statuses are the mod-3 function of the
original ids of the raw records, in order. -/
lemma processPages_statuses (pgs : List (List User)) (ctr : Nat) :
    ((processPages pgs ctr).1.flatten).map User.status
      = pgs.flatten.map (fun u => some (assignStatus u.id)) := by
  induction pgs generalizing ctr with
  | nil => rfl
  | cons pg rest ih =>
    simp [processPages, assignStatusToUsers_statuses, ih]

/-- C1, counterexample: with `reportedTotal = 10`, `cap = 35` and
`pageSize = 10`, the offsets the session actually requests are not the
claimed `0, 10, 0, 10, 0` — the cycling formula `loaded % total` always
lands back on offset 0 because every loaded count is a multiple of 10. -/
theorem cycling_session_offsets_cex :
    (runSession 35 10 10 20).1 ≠ [0, 10, 0, 10, 0] := by decide

/-- C1, amended: with `reportedTotal = 10`, `cap = 35`, `pageSize = 10`,
the session requests offsets `0, 0, 0, 0` and then stops, having loaded 40
records — past the cap, but by no more than one page's worth
(`40 ≤ 35 + 10`). -/
theorem cycling_session_offsets_amended :
    (runSession 35 10 10 20).1 = [0, 0, 0, 0] ∧
    (runSession 35 10 10 20).2.1 = true ∧
    loadedOf (runSession 35 10 10 20).2.2 = 40 ∧
    loadedOf (runSession 35 10 10 20).2.2 ≤ 35 + 10 := by decide

/-- C2, counterexample: under the client-side age filter a record aged
exactly 60 DOES match the `46-60` bucket (the switch tests
`age >= 46 && age <= 60`, inclusive), contradicting the claim that it does
not. -/
theorem age_bucket_cex :
    residualPass { baseFilters with ageRange := "46-60" } u60 = true := by decide

/-- C2, amended: age 25 matches `18-25` and not `26-35`; age 60 matches
`60+` and ALSO matches `46-60`, since that bucket is inclusive at both
ends. -/
theorem age_bucket_boundaries_amended :
    residualPass { baseFilters with ageRange := "18-25" } u25 = true ∧
    residualPass { baseFilters with ageRange := "26-35" } u25 = false ∧
    residualPass { baseFilters with ageRange := "60+" } u60 = true ∧
    residualPass { baseFilters with ageRange := "46-60" } u60 = true := by decide

/-- C3, counterexample: an ageRange-only filter change — which leaves the
query key, hence the cache identity, untouched — still goes through
`handleFiltersChange` and therefore empties the selection set, contradicting
the claim that it is left unchanged. -/
theorem ageRange_change_clears_selection_cex :
    (handleFiltersChange { baseFilters with ageRange := "18-25" }
        { selectedUsers := {1}, currentUser := none, filters := baseFilters }).selectedUsers
      ≠ ({1} : Finset Nat) ∧
    queryKey { baseFilters with ageRange := "18-25" } = queryKey baseFilters := by
  refine ⟨?_, rfl⟩
  simp only [handleFiltersChange]
  exact Ne.symm (Finset.singleton_ne_empty 1)

/-- C3, amended: `handleFiltersChange` clears the selection set on EVERY
filter change — changes to the FilterIdentity fields (searchQuery,
searchType, gender) and ageRange-only changes alike — while installing the
new filters and keeping the focused record. -/
theorem filters_change_clears_selection (s : AppState) (nf : FilterOptions) :
    (handleFiltersChange nf s).selectedUsers = ∅ ∧
    (handleFiltersChange nf s).filters = nf ∧
    (handleFiltersChange nf s).currentUser = s.currentUser :=
  ⟨rfl, rfl, rfl⟩

/-- C4, counterexample: a 2xx response whose body has no `users` array is
not normalized to a zero-record page — `data.users.map` throws and the
error propagates. -/
theorem missing_users_cex :
    parseResponse { users := none, total := 0 } 0
        ≠ .ok ({ users := [], total := 0 }, 0) ∧
    parseResponse { users := none, total := 0 } 0 = .error .typeError := by
  refine ⟨?_, rfl⟩
  simp [parseResponse]

/-- C4, amended: for every reported total and counter state, a 2xx body
missing the `users` array makes `fetchUsers` throw a TypeError
(`data.users.map` on `undefined`), which the catch block rethrows to the
caller; there is no zero-records defensive default. -/
theorem missing_users_propagates_error (total ctr : Nat) :
    parseResponse { users := none, total := total } ctr = .error .typeError := rfl

/-- C5, counterexample: a cache whose most recent page reports total = 0
while carrying one record does not make `getNextPageParam` stop — the
cycling expression `loaded % 0` is NaN, which is neither `undefined` nor a
usable offset. -/
theorem zero_total_not_stop_cex :
    getNextPageParam 150000 ⟨1, 0⟩ [⟨1, 0⟩] = .nan ∧
    getNextPageParam 150000 ⟨1, 0⟩ [⟨1, 0⟩] ≠ .stop := by decide

/-- C5, amended: `getNextPageParam` returns STOP exactly when the loaded
count has reached the cap or the most recent page returned zero records;
and provided the last page is consistent with the remote contract (a zero
reported total comes with zero records), a zero reported total does imply
STOP. -/
theorem stop_characterization (cap : Nat) (last : PageInfo) (pages : List PageInfo)
    (hcons : last.total = 0 → last.len = 0) :
    (getNextPageParam cap last pages = .stop ↔
      cap ≤ loadedOf pages ∨ last.len = 0) ∧
    (last.total = 0 → getNextPageParam cap last pages = .stop) := by
  have hiff : getNextPageParam cap last pages = .stop ↔
      cap ≤ loadedOf pages ∨ last.len = 0 := by
    unfold getNextPageParam
    split_ifs with h1 h2 h3 h4 h5 <;> simp_all
  exact ⟨hiff, fun h0 => hiff.mpr (Or.inr (hcons h0))⟩

/-- C5, witness: the stop characterization applied to a concrete contract-
consistent cache of four full pages of ten against cap 35. -/
theorem stop_characterization_witness :
    getNextPageParam 35 ⟨10, 10⟩ [⟨10, 10⟩, ⟨10, 10⟩, ⟨10, 10⟩, ⟨10, 10⟩] = .stop := by
  have h := stop_characterization 35 ⟨10, 10⟩ [⟨10, 10⟩, ⟨10, 10⟩, ⟨10, 10⟩, ⟨10, 10⟩]
    (by decide)
  exact h.1.mpr (Or.inl (by decide))

/-- C6, counterexample: a search string that is non-empty but blank — a
single space — with searchType "all" and no gender does NOT produce a
search-by-text call: `fetchUsersWithParams` falls through to the plain
paginated listing call, contradicting the claim for that input. -/
theorem request_dispatch_cex :
    (" " : String) ≠ "" ∧
    fetchUsersWithParams
        { limit := 30, skip := 0, search := some " ", searchType := .all,
          filterKey := none, filterValue := none }
      ≠ .searchCall " " 30 0 ∧
    fetchUsersWithParams
        { limit := 30, skip := 0, search := some " ", searchType := .all,
          filterKey := none, filterValue := none }
      = .listCall 30 0 := by
  refine ⟨by decide, ?_, ?_⟩ <;>
    simp [fetchUsersWithParams, searchActive, optTruthy, jsTrim, isWs]

/-- C6, amended: with "non-empty search string" read as a search string
whose trim is non-empty, App's unified fetch issues exactly one of the
three request shapes, search taking priority over gender filtering: a
search-by-text call for searchType "all" and a targeted field-filter call
on firstName/lastName otherwise; else the gender field-filter call when a
gender criterion is present; else the plain paginated listing call. -/
theorem request_dispatch_amended (f : FilterOptions) (skip : Nat) :
    (jsTrim f.searchQuery ≠ "" →
      appQueryFn f skip =
        (match f.searchType with
          | .all => .searchCall f.searchQuery BATCH_SIZE skip
          | .firstName => .filterCall "firstName" f.searchQuery BATCH_SIZE skip
          | .lastName => .filterCall "lastName" f.searchQuery BATCH_SIZE skip)) ∧
    (jsTrim f.searchQuery = "" → f.gender ≠ "" →
      appQueryFn f skip = .filterCall "gender" f.gender BATCH_SIZE skip) ∧
    (jsTrim f.searchQuery = "" → f.gender = "" →
      appQueryFn f skip = .listCall BATCH_SIZE skip) := by
  refine ⟨fun h => ?_, fun h hg => ?_, fun h hg => ?_⟩
  · cases hst : f.searchType <;>
      simp [appQueryFn, fetchUsersWithParams, searchActive_of_trim_ne h, hst]
  · simp [appQueryFn, fetchUsersWithParams, searchActive_of_trim_eq h, hg, optTruthy]
  · simp [appQueryFn, fetchUsersWithParams, searchActive_of_trim_eq h, hg, optTruthy]

/-- C6, witness: the dispatch theorem applied to the concrete filter state
searchQuery "john", searchType "all". -/
theorem request_dispatch_amended_witness :
    appQueryFn johnFilters 0 = .searchCall "john" BATCH_SIZE 0 := by
  have h := (request_dispatch_amended johnFilters 0).1 (by decide)
  exact h

/-- C7, counterexample: with searchQuery a single space (non-empty) and
gender "female" (non-empty), gender IS forwarded to the remote call — the
blank search fails the `search && search.trim()` guard, so the gender
field-filter call is issued — contradicting the claim that gender is never
forwarded when both are non-empty. -/
theorem gender_forwarded_whitespace_cex :
    blankFemaleFilters.searchQuery ≠ "" ∧ blankFemaleFilters.gender ≠ "" ∧
    appQueryFn blankFemaleFilters 0 = .filterCall "gender" "female" BATCH_SIZE 0 := by
  refine ⟨by decide, by decide, ?_⟩
  simp [appQueryFn, blankFemaleFilters, fetchUsersWithParams, searchActive,
    jsTrim, isWs, optTruthy]

/-- C7, amended: whenever the search query has a non-blank trim and gender
is non-empty, the remote call carries no gender filter (it is never the
`filterUsers("gender", ...)` shape), and the client-side residual filter
keeps only records whose lowercased gender matches the filter's. -/
theorem gender_residual_split (f : FilterOptions) (skip : Nat) (us : List User)
    (h1 : f.gender ≠ "") (h2 : jsTrim f.searchQuery ≠ "") :
    (∀ v l s, appQueryFn f skip ≠ .filterCall "gender" v l s) ∧
    (applyResidual f us).all
      (fun u => jsToLower u.gender == jsToLower f.gender) = true := by
  constructor
  · intro v l s
    cases hst : f.searchType <;>
      simp [appQueryFn, fetchUsersWithParams, searchActive_of_trim_ne h2, hst]
  · have hq : f.searchQuery ≠ "" := by
      intro he
      rw [he] at h2
      exact h2 jsTrim_nil
    rw [List.all_eq_true]
    intro u hu
    rw [applyResidual, List.mem_filter] at hu
    have hp := hu.2
    cases hgb : (jsToLower u.gender == jsToLower f.gender) with
    | true => rfl
    | false => simp [residualPass, h1, hq, hgb] at hp

/-- C7, witness: the split applied to the concrete state searchQuery "john",
gender "female", over a one-record list. -/
theorem gender_residual_split_witness :
    (appQueryFn johnFemaleFilters 0 ≠ .filterCall "gender" "female" BATCH_SIZE 0) ∧
    (applyResidual johnFemaleFilters [u60]).all
      (fun u => jsToLower u.gender == jsToLower johnFemaleFilters.gender) = true := by
  have h := gender_residual_split johnFemaleFilters 0 [u60] (by decide) (by decide)
  exact ⟨h.1 "female" BATCH_SIZE 0, h.2⟩

/-- C8: across any session — any sequence of raw pages fed through the
service layer with any starting counter — the rewritten ids of all fetched
records are pairwise distinct (even when raw records repeat a remote id),
and each record's demo status is exactly the mod-3 cycle over
active/inactive/pending applied to its original remote id. -/
theorem session_ids_unique_status_mod3 (pages : List (List User)) (ctr : Nat) :
    (((processPages pages ctr).1.flatten).map User.id).Nodup ∧
    ((processPages pages ctr).1.flatten).map User.status
      = pages.flatten.map (fun u => some (assignStatus u.id)) := by
  refine ⟨?_, processPages_statuses pages ctr⟩
  rw [processPages_ids]
  exact List.nodup_range' _ _

/-- C9: the client-side residual filter is idempotent — re-applying the
filter derived from any filter state to an already-filtered record sequence
changes nothing. -/
theorem residual_filter_idempotent (f : FilterOptions) (us : List User) :
    applyResidual f (applyResidual f us) = applyResidual f us := by
  simp [applyResidual, List.filter_filter]

/-- C10: a search string that is non-empty but blank (its trim is empty) is
treated by the unified fetch exactly as no search at all: the issued request
equals the one for an empty search query — the gender field-filter call when
a gender criterion is set, the plain paginated listing call otherwise — and
never a search or name-filter request. -/
theorem whitespace_search_is_no_search (f : FilterOptions) (skip : Nat)
    (h1 : f.searchQuery ≠ "") (h2 : jsTrim f.searchQuery = "") :
    appQueryFn f skip = appQueryFn { f with searchQuery := "" } skip ∧
    appQueryFn f skip =
      (if f.gender = "" then .listCall BATCH_SIZE skip
        else .filterCall "gender" f.gender BATCH_SIZE skip) := by
  have hs : searchActive (some f.searchQuery) = false := searchActive_of_trim_eq h2
  have hs0 : searchActive (some "") = false := rfl
  by_cases hg : f.gender = "" <;>
    simp [appQueryFn, fetchUsersWithParams, hs, hs0, hg, optTruthy]

/-- C10, witness: two spaces with gender "female" issue the gender
field-filter call. -/
theorem whitespace_search_is_no_search_witness :
    appQueryFn blank2FemaleFilters 0 = .filterCall "gender" "female" BATCH_SIZE 0 := by
  have h := whitespace_search_is_no_search blank2FemaleFilters 0 (by decide) (by decide)
  simpa [blank2FemaleFilters] using h.2

end Cards
